import Mathlib

/-!
Shallow embedding of the vless-app gateway (src/index.js).

Buffers are modelled as lists of natural numbers (one entry per byte).
Out-of-range JavaScript Buffer reads yield the value undefined, which the
numeric operators coerce to 0 (ToInt32 of NaN); this is modelled by a
read with default 0.  Fallible functions return Except values whose error
constructors are named after the thrown Error messages.
-/

deriving instance DecidableEq for Except

namespace VlessApp

/-- JavaScript Buffer element read: an out-of-range index gives undefined,
which every numeric operator in the modelled code coerces to 0. -/
def jsGet (b : List Nat) (i : Nat) : Nat := b.getD i 0

/-- JavaScript Buffer.slice with non-negative start and end: clamps to the
available range and never fails. -/
def jsSlice (b : List Nat) (s e : Nat) : List Nat := (b.drop s).take (e - s)

/-- Errors thrown by parseWebSocketFrame and constructWebSocketFrame,
named after the JavaScript Error messages. -/
inductive FrameError where
  | fragmentedFramesUnsupported
  | onlyTextFramesSupported
  | framesMustBeMasked
  | messageTooLong
deriving DecidableEq, Repr

/-- Embedding of parseWebSocketFrame (src/index.js lines 240-271), at byte
level: the result is the unmasked payload byte sequence, before the final
utf8 string conversion.  The payload length is the 7-bit length field used
literally; the mask key is always read from bytes 2..5 and the payload from
byte 6 on.  The unmasking loop runs for the declared length: positions past
the end of the supplied buffer read undefined, coerced to 0 by the xor. -/
def parseWebSocketFrame (buffer : List Nat) : Except FrameError (List Nat) :=
  let firstByte := jsGet buffer 0
  let secondByte := jsGet buffer 1
  let opcode := firstByte &&& 0x0f
  let payloadLength := secondByte &&& 0x7f
  if firstByte &&& 0x80 ≠ 0x80 then .error .fragmentedFramesUnsupported
  else if opcode ≠ 0x1 then .error .onlyTextFramesSupported
  else if secondByte &&& 0x80 ≠ 0x80 then .error .framesMustBeMasked
  else
    let maskingKey := jsSlice buffer 2 6
    let payloadData := jsSlice buffer 6 (6 + payloadLength)
    .ok ((List.range payloadLength).map fun i =>
      ((payloadData.getD i 0) ^^^ (maskingKey.getD (i % 4) 0)) % 256)

/-- Embedding of constructWebSocketFrame (src/index.js lines 278-299), at
byte level: the argument is the utf8 byte sequence of the message.  The
frame carries FIN plus the text opcode, no mask, and a one-byte length for
messages up to 125 bytes or the 126 marker plus a 16-bit big-endian length
up to 65535 bytes. -/
def constructWebSocketFrame (message : List Nat) : Except FrameError (List Nat) :=
  let length := message.length
  if length ≤ 125 then .ok (0x81 :: length :: message)
  else if length ≤ 65535 then
    .ok (0x81 :: 126 :: length / 256 :: length % 256 :: message)
  else .error .messageTooLong

/-- Lowercase hexadecimal digit for a value below 16. -/
def hexDigit (n : Nat) : Char :=
  if n < 10 then Char.ofNat (48 + n) else Char.ofNat (97 + n - 10)

/-- Two lowercase hexadecimal digits of one byte. -/
def byteHexChars (b : Nat) : List Char := [hexDigit (b / 16 % 16), hexDigit (b % 16)]

/-- Character list of the Buffer.toString hex rendering of a byte list. -/
def bytesToHexChars (l : List Nat) : List Char := (l.map byteHexChars).flatten

/-- Buffer.toString hex rendering of a byte list. -/
def bytesToHex (l : List Nat) : String := String.mk (bytesToHexChars l)

/-- Buffer.toString utf8, modelled one character per byte.  This coincides
with the JavaScript conversion on ASCII content, which covers every host
string appearing in this development. -/
def latin1String (l : List Nat) : String := String.mk (l.map Char.ofNat)

/-- Groups of at most four characters, fuel-driven recursion.  The fuel
bounds the number of groups; each step consumes at least one character,
so a fuel equal to the length is always enough. -/
def chunkCharsAux : Nat → List Char → List (List Char)
  | 0, _ => []
  | _, [] => []
  | fuel + 1, l => l.take 4 :: chunkCharsAux fuel (l.drop 4)

/-- Groups of at most four characters, as produced by matching the hex
string against the one-to-four-character regular expression. -/
def chunkChars (l : List Char) : List (List Char) := chunkCharsAux l.length l

/-- Rendering of 16 address bytes as colon-separated groups of four hex
digits, as in the IPv6 branch of parseVLESSHeader. -/
def ipv6String (bytes : List Nat) : String :=
  String.intercalate (":") ((chunkChars (bytesToHexChars bytes)).map String.mk)

/-- Errors of parseVLESSHeader: the two thrown Error messages plus the
range error raised by Buffer.readUInt16BE when the port offset runs past
the end of the buffer. -/
inductive VLESSError where
  | insufficientHeaderLength
  | unsupportedAddressType
  | portReadOutOfRange
deriving DecidableEq, Repr

/-- Decoded tunnel request returned by parseVLESSHeader. -/
structure VLESSRequest where
  uuid : String
  targetHost : String
  targetPort : Nat
  rawData : List Nat
deriving DecidableEq, Repr

/-- Common tail of parseVLESSHeader after the address switch: read the
16-bit big-endian port at offset 20 plus the address length (readUInt16BE
fails with a range error when fewer than two bytes remain there) and take
the remaining bytes from offset 22 plus the address length as raw data. -/
def vlessFinish (buffer : List Nat) (targetHost : String) (addressLength : Nat) :
    Except VLESSError VLESSRequest :=
  if 20 + addressLength + 2 ≤ buffer.length then
    .ok ⟨bytesToHex (jsSlice buffer 1 17), targetHost,
         jsGet buffer (20 + addressLength) * 256 + jsGet buffer (20 + addressLength + 1),
         buffer.drop (22 + addressLength)⟩
  else .error .portReadOutOfRange

/-- Embedding of parseVLESSHeader (src/index.js lines 472-510).  Buffers
shorter than 24 bytes are rejected; byte 19 selects the address encoding:
1 renders bytes 20..23 in dotted decimal, 3 reads a length byte at 20 and
that many bytes from 21 as the host, 4 renders bytes 20..35 as
colon-grouped hex; any other value is rejected.  The port is then read at
offset 20 plus the address length and the raw data starts at offset 22
plus the address length. -/
def parseVLESSHeader (buffer : List Nat) : Except VLESSError VLESSRequest :=
  if buffer.length < 24 then .error .insufficientHeaderLength
  else if jsGet buffer 19 = 1 then
    vlessFinish buffer
      (String.intercalate (".") ((jsSlice buffer 20 24).map toString)) 4
  else if jsGet buffer 19 = 3 then
    vlessFinish buffer
      (latin1String (jsSlice buffer 21 (21 + jsGet buffer 20))) (jsGet buffer 20)
  else if jsGet buffer 19 = 4 then
    vlessFinish buffer (ipv6String (jsSlice buffer 20 36)) 16
  else .error .unsupportedAddressType

/-- Address length selected by byte 19, as computed in the switch of
parseVLESSHeader: 4 for IPv4, the length byte at offset 20 for domains,
16 for IPv6. -/
def vlessAddressLength (b : List Nat) : Nat :=
  if jsGet b 19 = 1 then 4 else if jsGet b 19 = 3 then jsGet b 20 else 16

/-- Destination address forms of the tunnel header wire layout. -/
inductive TunnelAddress where
  | ipv4 (b0 b1 b2 b3 : Nat)
  | domain (name : String)
  | ipv6 (bytes : List Nat)

/-- Address-type byte followed by the address bytes of the wire layout:
type 1 with four raw bytes, type 3 with a length byte and the domain
bytes, type 4 with sixteen raw bytes. -/
def addressBytes : TunnelAddress → List Nat
  | .ipv4 a b c d => [1, a, b, c, d]
  | .domain s => 3 :: s.length :: s.toList.map Char.toNat
  | .ipv6 bs => 4 :: bs

/-- Modelled from the spec: the tunnel header wire layout of section 4.3,
which no function under src builds (only the parser consumes it).  Byte 0
is the version, bytes 1..16 the identity, byte 17 the options length,
byte 18 the command, byte 19 the address type followed by the address
bytes, then immediately after the address a 16-bit big-endian port, then
the initial payload. -/
def buildTunnelHeader (identity : List Nat) (addr : TunnelAddress) (port : Nat)
    (payload : List Nat) : List Nat :=
  0 :: identity ++ [0, 0] ++ addressBytes addr ++ [port / 256, port % 256] ++ payload

/-- Observable actions of the class-based connection handler: opening the
destination TCP connection, writing to it, sending on the WebSocket, and
closing the WebSocket with a code and reason. -/
inductive Effect where
  | openConnection (host : String) (port : Nat)
  | targetWrite (data : List Nat)
  | wsSend (data : List Nat)
  | wsClose (code : Nat) (reason : String)
deriving DecidableEq, Repr

/-- Input events a running session reacts to: a message on the client
WebSocket and a data chunk on the current destination socket. -/
inductive SessionEvent where
  | clientMessage (data : List Nat)
  | targetData (chunk : List Nat)
deriving DecidableEq, Repr

/-- Embedding of the message listener installed by
handleWebSocketConnection (src/index.js lines 420-458).  Every client
message is parsed as a VLESS header; a parse failure closes the WebSocket
with code 1011, a UUID mismatch with code 1008; otherwise a connection to
the decoded host and port is opened, the decoded raw data is written to
it, and it becomes the current destination socket.  The state is the
current destination socket, as its host and port, or none. -/
def onClientMessage (cfgUUID : String) (targetSocket : Option (String × Nat))
    (data : List Nat) : Option (String × Nat) × List Effect :=
  match parseVLESSHeader data with
  | .error _ => (targetSocket, [.wsClose 1011 ("Processing Error")])
  | .ok r =>
    if r.uuid ≠ cfgUUID then (targetSocket, [.wsClose 1008 ("Invalid UUID")])
    else (some (r.targetHost, r.targetPort),
      [.openConnection r.targetHost r.targetPort, .targetWrite r.rawData])

/-- Embedding of the data listener attached to the destination socket:
each chunk is sent to the client WebSocket unmodified.  Without a current
destination socket no listener exists and the event produces nothing. -/
def onTargetData (targetSocket : Option (String × Nat)) (chunk : List Nat) :
    List Effect :=
  match targetSocket with
  | some _ => [.wsSend chunk]
  | none => []

/-- Sequential run of one session over its input events, threading the
current destination socket and concatenating the emitted effects. -/
def sessionRun (cfgUUID : String) (targetSocket : Option (String × Nat)) :
    List SessionEvent → List Effect
  | [] => []
  | .clientMessage d :: rest =>
    (onClientMessage cfgUUID targetSocket d).2 ++
      sessionRun cfgUUID (onClientMessage cfgUUID targetSocket d).1 rest
  | .targetData c :: rest =>
    onTargetData targetSocket c ++ sessionRun cfgUUID targetSocket rest

/-- Embedding of the admission check of handleWebSocketUpgrade
(src/index.js lines 400-412): when the connection count has reached the
configured maximum the upgrade is refused and the count is unchanged;
otherwise the upgrade proceeds and the count is incremented.  Counts are
integers, as JavaScript numbers can go below zero on release. -/
def handleWebSocketUpgrade (connectionCount maxConnections : Int) : Bool × Int :=
  if maxConnections ≤ connectionCount then (false, connectionCount)
  else (true, connectionCount + 1)

/-- Embedding of the close listener of handleWebSocketConnection
(src/index.js lines 461-466): the connection count is decremented. -/
def releaseConnection (connectionCount : Int) : Int := connectionCount - 1

/-- Iterated admissions: runs the upgrade check the given number of
times, reporting whether every attempt succeeded and the final count.
A refused attempt stops the run. -/
def runUpgrades : Nat → Int → Int → Bool × Int
  | 0, count, _ => (true, count)
  | n + 1, count, maxC =>
    match handleWebSocketUpgrade count maxC with
    | (true, c) => runUpgrades n c maxC
    | (false, c) => (false, c)

/-- Bytes of a string under the binary encoding used by the hash update:
each character contributes the low byte of its code unit.  All strings in
this development are ASCII, where this is the identity on code points. -/
def strBytes (s : String) : List Nat := s.toList.map fun c => c.toNat % 256

/-- Rotation of a 32-bit word left by the given number of bits. -/
def rotl32 (k x : Nat) : Nat := ((x <<< k) % 4294967296) ||| (x >>> (32 - k))

/-- Round function of SHA-1: choose, parity, majority, parity. -/
def sha1F (t b c d : Nat) : Nat :=
  if t < 20 then (b &&& c) ||| ((b ^^^ 4294967295) &&& d)
  else if t < 40 then b ^^^ c ^^^ d
  else if t < 60 then (b &&& c) ||| (b &&& d) ||| (c &&& d)
  else b ^^^ c ^^^ d

/-- Round constants of SHA-1. -/
def sha1K (t : Nat) : Nat :=
  if t < 20 then 0x5A827999 else if t < 40 then 0x6ED9EBA1
  else if t < 60 then 0x8F1BBCDC else 0xCA62C1D6

/-- Big-endian 32-bit words of a byte list, four bytes per word. -/
def wordsOfBytes : List Nat → List Nat
  | b0 :: b1 :: b2 :: b3 :: rest =>
    (((b0 * 256 + b1) * 256 + b2) * 256 + b3) :: wordsOfBytes rest
  | _ => []

/-- Message-schedule expansion of SHA-1: the 16 block words are extended
to 80, each new word the one-bit left rotation of the xor of the words
3, 8, 14 and 16 positions back. -/
def sha1ExtendWords (w : List Nat) : List Nat :=
  (List.range 64).foldl (fun w j =>
    w ++ [rotl32 1 (((w.getD (j + 13) 0) ^^^ (w.getD (j + 8) 0)) ^^^
      ((w.getD (j + 2) 0) ^^^ (w.getD j 0)))]) w

/-- SHA-1 compression of one 64-byte block into the running state of
five 32-bit words. -/
def sha1Block (h : Nat × Nat × Nat × Nat × Nat) (block : List Nat) :
    Nat × Nat × Nat × Nat × Nat :=
  let w := sha1ExtendWords (wordsOfBytes block)
  let r := (List.range 80).foldl (fun s t =>
    ((rotl32 5 s.1 + sha1F t s.2.1 s.2.2.1 s.2.2.2.1 + s.2.2.2.2 + sha1K t +
        w.getD t 0) % 4294967296,
     s.1, rotl32 30 s.2.1, s.2.2.1, s.2.2.2.1)) h
  ((h.1 + r.1) % 4294967296, (h.2.1 + r.2.1) % 4294967296,
   (h.2.2.1 + r.2.2.1) % 4294967296, (h.2.2.2.1 + r.2.2.2.1) % 4294967296,
   (h.2.2.2.2 + r.2.2.2.2) % 4294967296)

/-- Eight big-endian bytes of a 64-bit value. -/
def beBytes8 (n : Nat) : List Nat :=
  [n / 2 ^ 56 % 256, n / 2 ^ 48 % 256, n / 2 ^ 40 % 256, n / 2 ^ 32 % 256,
   n / 2 ^ 24 % 256, n / 2 ^ 16 % 256, n / 2 ^ 8 % 256, n % 256]

/-- SHA-1 padding: a 0x80 byte, zeros up to 56 modulo 64, and the bit
length as eight big-endian bytes. -/
def sha1Pad (msg : List Nat) : List Nat :=
  msg ++ 128 :: List.replicate ((119 - msg.length % 64) % 64) 0 ++
    beBytes8 (msg.length * 8)

/-- Split into 64-byte blocks, fuel-driven recursion; a fuel equal to the
length is always enough since every step consumes at least one byte. -/
def chunks64Aux : Nat → List Nat → List (List Nat)
  | 0, _ => []
  | _, [] => []
  | fuel + 1, l => l.take 64 :: chunks64Aux fuel (l.drop 64)

/-- Split into 64-byte blocks. -/
def chunks64 (l : List Nat) : List (List Nat) := chunks64Aux l.length l

/-- The five state words of the SHA-1 digest of a byte sequence. -/
def sha1Words (msg : List Nat) : Nat × Nat × Nat × Nat × Nat :=
  (chunks64 (sha1Pad msg)).foldl sha1Block
    (0x67452301, 0xEFCDAB89, 0x98BADCFE, 0x10325476, 0xC3D2E1F0)

/-- Four big-endian bytes of a 32-bit word. -/
def wordToBytes (v : Nat) : List Nat :=
  [v / 2 ^ 24 % 256, v / 2 ^ 16 % 256, v / 2 ^ 8 % 256, v % 256]

/-- SHA-1 digest, 20 bytes. -/
def sha1 (msg : List Nat) : List Nat :=
  wordToBytes (sha1Words msg).1 ++ wordToBytes (sha1Words msg).2.1 ++
  wordToBytes (sha1Words msg).2.2.1 ++ wordToBytes (sha1Words msg).2.2.2.1 ++
  wordToBytes (sha1Words msg).2.2.2.2

/-- Character of a six-bit value in the standard base64 alphabet. -/
def b64Char (n : Nat) : Char :=
  if n < 26 then Char.ofNat (65 + n)
  else if n < 52 then Char.ofNat (97 + (n - 26))
  else if n < 62 then Char.ofNat (48 + (n - 52))
  else if n = 62 then '+'
  else '/'

/-- Standard base64 of a byte list, three bytes to four characters, with
trailing = padding. -/
def base64Go : List Nat → List Char
  | [] => []
  | [b0] => [b64Char (b0 / 4), b64Char (b0 % 4 * 16), '=', '=']
  | [b0, b1] =>
    [b64Char (b0 / 4), b64Char (b0 % 4 * 16 + b1 / 16), b64Char (b1 % 16 * 4), '=']
  | b0 :: b1 :: b2 :: rest =>
    b64Char (b0 / 4) :: b64Char (b0 % 4 * 16 + b1 / 16) ::
    b64Char (b1 % 16 * 4 + b2 / 64) :: b64Char (b2 % 64) :: base64Go rest

/-- Standard base64 encoding of a byte list as a string. -/
def base64encode (l : List Nat) : String := String.mk (base64Go l)

/-- Embedding of generateAcceptValue (src/index.js lines 104-109): the
base64 of the SHA-1 digest of the key concatenated with the fixed magic
constant. -/
def generateAcceptValue (acceptKey : String) : String :=
  base64encode (sha1 (strBytes (acceptKey ++ "258EAFA5-E914-47DA-95CA-C5AB0DC85B11")))

/-- Embedding of the response written by handleWebSocket (src/index.js
lines 46-63): without a Sec-WebSocket-Key header a 400 response, with one
the fixed protocol-switch response carrying the computed accept value. -/
def handleWebSocket (secWebSocketKey : Option String) : String :=
  match secWebSocketKey with
  | none => "HTTP/1.1 400 Bad Request\r\n\r\n"
  | some key =>
    "HTTP/1.1 101 Switching Protocols\r\nUpgrade: websocket\r\nConnection: Upgrade\r\nSec-WebSocket-Accept: "
      ++ generateAcceptValue key ++ "\r\n\r\n"

/-- Identity bytes of the UUID 11111111-1111-4111-8111-111111111111. -/
def sampleIdentity : List Nat :=
  [17, 17, 17, 17, 17, 17, 65, 17, 129, 17, 17, 17, 17, 17, 17, 17]

/-- Initial payload bytes of the end-to-end scenario, the ASCII text of a
minimal GET request line with two CRLF pairs. -/
def sampleInitialPayload : List Nat :=
  [71, 69, 84, 32, 47, 32, 72, 84, 84, 80, 47, 49, 46, 48, 13, 10, 13, 10]

/-- Domain-type tunnel header of the end-to-end scenario: the sample
identity, domain example.com, port 443, empty payload. -/
def exampleDomainHeader : List Nat :=
  buildTunnelHeader sampleIdentity (.domain ("example.com")) 443 []

/-- IPv4-type tunnel header of the end-to-end scenario: the sample
identity, destination 93.184.216.34 port 80, the sample payload. -/
def exampleIpv4Header : List Nat :=
  buildTunnelHeader sampleIdentity (.ipv4 93 184 216 34) 80 sampleInitialPayload

set_option maxRecDepth 100000 in
/-- Validation of the hash and base64 embedding on the known-answer
handshake vector of the WebSocket protocol specification. -/
theorem generateAcceptValue_known_vector :
    generateAcceptValue ("dGhlIHNhbXBsZSBub25jZQ==") = "s3pPLMBiTxaQ9kYGzzhZRbK+xOo=" := by
  decide

/-- Claim C1: after a session has entered relaying, a further chunk sent
on the client WebSocket is not forwarded to the destination.  With the
configuration that lets the first message pass, the run over the first
message followed by the raw chunk hello opens the destination and writes
the initial payload, but the chunk itself is parsed as a fresh tunnel
header, fails, and closes the WebSocket with code 1011; no write of the
chunk to the destination occurs. -/
theorem c1_subsequent_chunk_not_forwarded :
    sessionRun ("11111111111141118111111111111111") none
      [.clientMessage exampleIpv4Header, .clientMessage [104, 101, 108, 108, 111]] =
      [.openConnection ("93.184.216.34") 80, .targetWrite sampleInitialPayload,
       .wsClose 1011 ("Processing Error")] ∧
    Effect.targetWrite [104, 101, 108, 108, 111] ∉
      sessionRun ("11111111111141118111111111111111") none
        [.clientMessage exampleIpv4Header, .clientMessage [104, 101, 108, 108, 111]] := by
  constructor
  · decide
  · decide

/-- Claim C2: the domain-type header built from the spec layout with
domain example.com, port 443 and empty payload does not round-trip: the
parser reads the port at offset 20 plus the domain length, overlapping
the final domain byte, and returns port 27905 with a one-byte payload
instead of port 443 with an empty payload. -/
theorem c2_domain_header_misparsed :
    parseVLESSHeader exampleDomainHeader =
      .ok ⟨"11111111111141118111111111111111", "example.com", 27905, [187]⟩ ∧
    parseVLESSHeader exampleDomainHeader ≠
      .ok ⟨"11111111111141118111111111111111", "example.com", 443, []⟩ := by
  constructor
  · decide
  · decide

/-- Claim C3: with the configured identity equal to the dashed UUID
string, the first message carrying the raw identity bytes and the IPv4
destination is rejected with close code 1008 and no destination
connection is opened, because the parser renders the identity as a
32-character dashless hex string which never equals the dashed
configuration value.  The second conjunct shows the header itself decodes
to the intended destination. -/
theorem c3_valid_identity_rejected :
    onClientMessage ("11111111-1111-4111-8111-111111111111") none exampleIpv4Header =
      (none, [.wsClose 1008 ("Invalid UUID")]) ∧
    parseVLESSHeader exampleIpv4Header =
      .ok ⟨"11111111111141118111111111111111", "93.184.216.34", 80,
        sampleInitialPayload⟩ := by
  constructor
  · decide
  · decide

/-- Claim C4, counterexample: decoding the encoding of the one-byte
message does not return the message; it fails, because the encoder emits
unmasked frames and the decoder only accepts masked ones. -/
theorem c4_counterexample :
    (constructWebSocketFrame [97]).bind parseWebSocketFrame ≠ .ok [97] ∧
    (constructWebSocketFrame [97]).bind parseWebSocketFrame =
      .error FrameError.framesMustBeMasked := by
  constructor
  · decide
  · decide

/-- Claim C4, amended: for every message of at most 65535 bytes, decoding
the encoding fails with the frames-must-be-masked error, since the
encoder never sets the mask bit and the decoder requires it. -/
theorem c4_decode_encode_unmasked (m : List Nat) (hle : m.length ≤ 65535) :
    (constructWebSocketFrame m).bind parseWebSocketFrame =
      .error FrameError.framesMustBeMasked := by
  by_cases hsmall : m.length ≤ 125
  · have h1 : m.length &&& 128 ≤ m.length := Nat.and_le_left
    have hand : ¬ m.length &&& 128 = 128 := by omega
    have hp : parseWebSocketFrame (129 :: m.length :: m) =
        .error FrameError.framesMustBeMasked := by
      simp [parseWebSocketFrame, jsGet, hand]
      decide
    simp [constructWebSocketFrame, hsmall, hp, Except.bind]
  · have hp : parseWebSocketFrame (129 :: 126 :: m.length / 256 :: m.length % 256 :: m) =
        .error FrameError.framesMustBeMasked := by
      simp [parseWebSocketFrame, jsGet]
      decide
    simp [constructWebSocketFrame, hsmall, hle, hp, Except.bind]

/-- Claim C4, witness. -/
theorem c4_witness :
    (constructWebSocketFrame []).bind parseWebSocketFrame =
      .error FrameError.framesMustBeMasked :=
  c4_decode_encode_unmasked [] (by decide)

set_option maxRecDepth 10000 in
/-- Claim C5, counterexample: a masked text frame whose 7-bit length
field is 126 and whose following two bytes encode the extended length 1
decodes to a 126-byte payload, not a 1-byte payload: the two extended
length bytes are never read as a length. -/
theorem c5_counterexample :
    (parseWebSocketFrame [129, 254, 0, 1, 0, 0, 0, 0, 42]).map List.length =
      .ok 126 ∧
    (parseWebSocketFrame [129, 254, 0, 1, 0, 0, 0, 0, 42]).map List.length ≠
      .ok 1 := by
  constructor
  · decide
  · decide

/-- Claim C5, amended: on every final masked text frame whose 7-bit
length field equals 126, the decoder uses 126 itself as the payload
length; no 16-bit extended length is read. -/
theorem c5_length_field_used_literally (buffer : List Nat)
    (hfin : jsGet buffer 0 &&& 128 = 128) (hop : jsGet buffer 0 &&& 15 = 1)
    (hmask : jsGet buffer 1 &&& 128 = 128) (hlen : jsGet buffer 1 &&& 127 = 126) :
    ∃ p, parseWebSocketFrame buffer = .ok p ∧ p.length = 126 := by
  refine ⟨(List.range 126).map fun i =>
    (((jsSlice buffer 6 (6 + 126)).getD i 0) ^^^
      ((jsSlice buffer 2 6).getD (i % 4) 0)) % 256, ?_, by simp⟩
  simp [parseWebSocketFrame, hfin, hop, hmask, hlen]

/-- Claim C5, witness. -/
theorem c5_witness :
    ∃ p, parseWebSocketFrame [129, 254, 0, 1, 0, 0, 0, 0, 42] = .ok p ∧
      p.length = 126 :=
  c5_length_field_used_literally [129, 254, 0, 1, 0, 0, 0, 0, 42]
    (by decide) (by decide) (by decide) (by decide)

/-- Claim C6, counterexample: a 24-byte buffer whose byte 19 selects the
IPv4 address type does not parse successfully; the port read at offset 24
runs past the end of the buffer and raises a range error. -/
theorem c6_counterexample :
    parseVLESSHeader ((List.range 24).map fun i => if i = 19 then 1 else 0) =
      .error VLESSError.portReadOutOfRange := by
  decide

/-- Claim C6, amended: the parser fails with the header-too-short error
exactly on buffers shorter than 24 bytes, with the unsupported-address-
type error on longer buffers whose byte 19 is not 1, 3 or 4, and with a
supported address type it succeeds precisely when the buffer also covers
the two port bytes at offset 20 plus the address length, failing with a
range error otherwise. -/
theorem c6_parser_outcomes (b : List Nat) :
    (b.length < 24 → parseVLESSHeader b = .error VLESSError.insufficientHeaderLength) ∧
    (24 ≤ b.length → jsGet b 19 ≠ 1 → jsGet b 19 ≠ 3 → jsGet b 19 ≠ 4 →
      parseVLESSHeader b = .error VLESSError.unsupportedAddressType) ∧
    (24 ≤ b.length → (jsGet b 19 = 1 ∨ jsGet b 19 = 3 ∨ jsGet b 19 = 4) →
      (22 + vlessAddressLength b ≤ b.length → ∃ r, parseVLESSHeader b = .ok r) ∧
      (b.length < 22 + vlessAddressLength b →
        parseVLESSHeader b = .error VLESSError.portReadOutOfRange)) := by
  refine ⟨?_, ?_, ?_⟩
  · intro hshort
    simp [parseVLESSHeader, hshort]
  · intro hlong h1 h3 h4
    simp [parseVLESSHeader, Nat.not_lt.mpr hlong, h1, h3, h4]
  · intro hlong htype
    have hnot : ¬ b.length < 24 := Nat.not_lt.mpr hlong
    rcases htype with h | h | h
    · constructor
      · intro hfit
        rw [parseVLESSHeader]
        rw [if_neg hnot, if_pos h]
        rw [vlessFinish, if_pos (by simp [vlessAddressLength, h] at hfit; omega)]
        exact ⟨_, rfl⟩
      · intro hfail
        rw [parseVLESSHeader]
        rw [if_neg hnot, if_pos h]
        rw [vlessFinish, if_neg (by simp [vlessAddressLength, h] at hfail; omega)]
    · constructor
      · intro hfit
        have hne1 : jsGet b 19 ≠ 1 := by omega
        rw [parseVLESSHeader]
        rw [if_neg hnot, if_neg hne1, if_pos h]
        rw [vlessFinish, if_pos (by simp [vlessAddressLength, h, hne1] at hfit; omega)]
        exact ⟨_, rfl⟩
      · intro hfail
        have hne1 : jsGet b 19 ≠ 1 := by omega
        rw [parseVLESSHeader]
        rw [if_neg hnot, if_neg hne1, if_pos h]
        rw [vlessFinish, if_neg (by simp [vlessAddressLength, h, hne1] at hfail; omega)]
    · constructor
      · intro hfit
        have hne1 : jsGet b 19 ≠ 1 := by omega
        have hne3 : jsGet b 19 ≠ 3 := by omega
        rw [parseVLESSHeader]
        rw [if_neg hnot, if_neg hne1, if_neg hne3, if_pos h]
        rw [vlessFinish, if_pos (by simp [vlessAddressLength, hne1, hne3] at hfit; omega)]
        exact ⟨_, rfl⟩
      · intro hfail
        have hne1 : jsGet b 19 ≠ 1 := by omega
        have hne3 : jsGet b 19 ≠ 3 := by omega
        rw [parseVLESSHeader]
        rw [if_neg hnot, if_neg hne1, if_neg hne3, if_pos h]
        rw [vlessFinish, if_neg (by simp [vlessAddressLength, hne1, hne3] at hfail; omega)]

/-- Claim C6, witness. -/
theorem c6_witness :
    parseVLESSHeader [0] = .error VLESSError.insufficientHeaderLength ∧
    parseVLESSHeader ((List.range 30).map fun i => if i = 19 then 7 else 0) =
      .error VLESSError.unsupportedAddressType ∧
    (∃ r, parseVLESSHeader ((List.range 26).map fun i => if i = 19 then 1 else 0) =
      .ok r) ∧
    parseVLESSHeader ((List.range 24).map fun i => if i = 19 then 4 else 0) =
      .error VLESSError.portReadOutOfRange :=
  ⟨(c6_parser_outcomes [0]).1 (by decide),
   (c6_parser_outcomes _).2.1 (by decide) (by decide) (by decide) (by decide),
   ((c6_parser_outcomes _).2.2 (by decide) (by decide)).1 (by decide),
   ((c6_parser_outcomes _).2.2 (by decide) (by decide)).2 (by decide)⟩

/-- Helper for claim C7: any number of admissions that stays within the
ceiling succeeds and raises the count by that number. -/
theorem runUpgrades_within (n : Nat) : ∀ c M : Int, c + n ≤ M →
    runUpgrades n c M = (true, c + n) := by
  induction n with
  | zero =>
    intro c M _
    simp [runUpgrades]
  | succ k ih =>
    intro c M h
    have hlt : ¬ M ≤ c := by push_cast at h; omega
    rw [runUpgrades]
    simp only [handleWebSocketUpgrade, if_neg hlt]
    rw [ih (c + 1) M (by push_cast at h ⊢; omega)]
    have : c + 1 + (k : Int) = c + ((k : Nat) + 1 : Nat) := by push_cast; ring
    rw [this]

/-- Claim C7: from zero active connections with ceiling N, N admission
checks all succeed and leave the count at N, the next check is refused
with the count unchanged, and after one release a further check
succeeds. -/
theorem c7_admission_ceiling (N : Nat) :
    runUpgrades N 0 N = (true, (N : Int)) ∧
    handleWebSocketUpgrade (N : Int) (N : Int) = (false, (N : Int)) ∧
    (handleWebSocketUpgrade (releaseConnection (N : Int)) (N : Int)).1 = true := by
  refine ⟨?_, ?_, ?_⟩
  · have := runUpgrades_within N 0 N (by simp)
    simpa using this
  · simp [handleWebSocketUpgrade]
  · have hlt : ¬ (N : Int) ≤ (N : Int) - 1 := by omega
    simp [handleWebSocketUpgrade, releaseConnection, hlt]

/-- Claim C8: a client message that decodes to a tunnel request whose
identity differs from the configured one closes the WebSocket with code
1008 and leaves the destination state unchanged, and over a whole event
trace in which every client message decodes to a mismatched identity no
destination connection is ever opened. -/
theorem c8_mismatch_no_connection (cfg : String) (st : Option (String × Nat))
    (data : List Nat) (r : VLESSRequest)
    (hp : parseVLESSHeader data = .ok r) (hne : r.uuid ≠ cfg) :
    onClientMessage cfg st data = (st, [.wsClose 1008 ("Invalid UUID")]) ∧
    ∀ evs : List SessionEvent,
      (∀ d, SessionEvent.clientMessage d ∈ evs →
        ∃ q, parseVLESSHeader d = .ok q ∧ q.uuid ≠ cfg) →
      ∀ hst pt, Effect.openConnection hst pt ∉ sessionRun cfg st evs := by
  constructor
  · simp [onClientMessage, hp, hne]
  · intro evs
    induction evs generalizing st with
    | nil =>
      intro _ hst pt
      simp [sessionRun]
    | cons e rest ih =>
      intro hall hst pt
      cases e with
      | clientMessage d =>
        obtain ⟨q, hq, hqne⟩ := hall d (by simp)
        have hmsg : onClientMessage cfg st d = (st, [.wsClose 1008 ("Invalid UUID")]) := by
          simp [onClientMessage, hq, hqne]
        simp only [sessionRun, hmsg, List.mem_append]
        rintro (hmem | hmem)
        · simp at hmem
        · exact ih st (fun d hd => hall d (by simp [hd])) hst pt hmem
      | targetData c =>
        simp only [sessionRun, List.mem_append]
        rintro (hmem | hmem)
        · cases st with
          | none => simp [onTargetData] at hmem
          | some tgt => simp [onTargetData] at hmem
        · exact ih st (fun d hd => hall d (by simp [hd])) hst pt hmem

/-- Claim C8, witness. -/
theorem c8_witness :
    onClientMessage ("11111111-1111-4111-8111-111111111111") none exampleIpv4Header =
      (none, [Effect.wsClose 1008 ("Invalid UUID")]) :=
  (c8_mismatch_no_connection ("11111111-1111-4111-8111-111111111111") none
    exampleIpv4Header
    ⟨"11111111111141118111111111111111", "93.184.216.34", 80, sampleInitialPayload⟩
    (by decide) (by decide)).1

/-- Claim C9: for every upgrade request carrying a key, the reply is the
fixed protocol-switch template whose accept token is the base64 encoding
of the SHA-1 digest of the key concatenated with the magic constant, and
that digest is 20 bytes, that is 160 bits, long. -/
theorem c9_handshake_response (k : String) :
    handleWebSocket (some k) =
      "HTTP/1.1 101 Switching Protocols\r\nUpgrade: websocket\r\nConnection: Upgrade\r\nSec-WebSocket-Accept: "
        ++ base64encode (sha1 (strBytes (k ++ "258EAFA5-E914-47DA-95CA-C5AB0DC85B11")))
        ++ "\r\n\r\n" ∧
    (sha1 (strBytes (k ++ "258EAFA5-E914-47DA-95CA-C5AB0DC85B11"))).length = 20 :=
  ⟨rfl, by simp [sha1, wordToBytes]⟩

/-- Claim C10: on a masked final text frame whose buffer ends before the
declared payload does, the decoder still succeeds with a payload of the
declared length, and every payload position at or past the end of the
buffer decodes to the mask-key byte for that position, since the
out-of-range read is coerced to zero before the xor. -/
theorem c10_truncation_fabricates_bytes (buffer : List Nat)
    (hbytes : ∀ x ∈ buffer, x < 256)
    (hfin : jsGet buffer 0 &&& 128 = 128)
    (hop : jsGet buffer 0 &&& 15 = 1)
    (hmask : jsGet buffer 1 &&& 128 = 128)
    (hlen6 : 6 ≤ buffer.length)
    (hshort : buffer.length < 6 + (jsGet buffer 1 &&& 127)) :
    ∃ p, parseWebSocketFrame buffer = .ok p ∧
      p.length = jsGet buffer 1 &&& 127 ∧
      ∀ i, buffer.length ≤ 6 + i → i < jsGet buffer 1 &&& 127 →
        p.getD i 0 = jsGet buffer (2 + i % 4) := by
  refine ⟨(List.range (jsGet buffer 1 &&& 127)).map fun i =>
      (((jsSlice buffer 6 (6 + (jsGet buffer 1 &&& 127))).getD i 0) ^^^
        ((jsSlice buffer 2 6).getD (i % 4) 0)) % 256, ?_, by simp, ?_⟩
  · simp [parseWebSocketFrame, hfin, hop, hmask]
  · intro i hge hlt
    have hmap : ((List.range (jsGet buffer 1 &&& 127)).map fun i =>
        (((jsSlice buffer 6 (6 + (jsGet buffer 1 &&& 127))).getD i 0) ^^^
          ((jsSlice buffer 2 6).getD (i % 4) 0)) % 256).getD i 0 =
        (((jsSlice buffer 6 (6 + (jsGet buffer 1 &&& 127))).getD i 0) ^^^
          ((jsSlice buffer 2 6).getD (i % 4) 0)) % 256 := by
      rw [List.getD_eq_getElem?_getD, List.getElem?_map, List.getElem?_range hlt]
      rfl
    have hpay : (jsSlice buffer 6 (6 + (jsGet buffer 1 &&& 127))).getD i 0 = 0 := by
      apply List.getD_eq_default
      simp only [jsSlice, List.length_take, List.length_drop]
      omega
    have h4 : i % 4 < 4 := Nat.mod_lt _ (by omega)
    have hidx : 2 + i % 4 < buffer.length := by omega
    have hkey : (jsSlice buffer 2 6).getD (i % 4) 0 = jsGet buffer (2 + i % 4) := by
      rw [jsSlice, jsGet, List.getD_eq_getElem?_getD, List.getD_eq_getElem?_getD]
      rw [List.getElem?_take]
      simp only [if_pos h4, List.getElem?_drop]
    have hval : jsGet buffer (2 + i % 4) < 256 := by
      rw [jsGet, List.getD_eq_getElem buffer 0 hidx]
      exact hbytes _ (List.getElem_mem hidx)
    rw [hmap, hpay, hkey, Nat.zero_xor, Nat.mod_eq_of_lt hval]

/-- Claim C10, witness: a masked final text frame declaring five payload
bytes but supplying only one; the four fabricated bytes equal the mask
key bytes. -/
theorem c10_witness :
    ∃ p, parseWebSocketFrame [129, 133, 1, 2, 3, 4, 9] = .ok p ∧
      p.length = 5 ∧
      ∀ i, (7 : Nat) ≤ 6 + i → i < 5 →
        p.getD i 0 = jsGet [129, 133, 1, 2, 3, 4, 9] (2 + i % 4) :=
  c10_truncation_fabricates_bytes [129, 133, 1, 2, 3, 4, 9]
    (by decide) (by decide) (by decide) (by decide) (by decide) (by decide)

end VlessApp
